import Mathlib

/-!
Verification development for the Solar Forecast chat frontend
(`src/solar-forecast-ai/frontend/src/components/SolarForecast.js`).

The component's behaviour is embedded shallowly:
* JavaScript values that flow through truthiness checks are modelled by
  `JsValue` together with the JS truthiness predicate `truthy`.
* The React component state (`message`, `conversations`, `loading`,
  `error`) is the structure `ComponentState`.
* `handleSubmit` is modelled as the list of state-changing events it
  performs, parameterised by the already-resolved outcome of the single
  awaited network call; folding the events over a state gives the final
  state.  The `networkCall` event marks where `axios.post` happens.
* The render helpers (`renderWeatherData`, `renderRecommendations`, …)
  become pure functions producing an abstract presentation tree
  (`Rendered` / `Block`).
-/

/-- A JavaScript value as far as truthiness and `===` comparisons with
string literals are concerned.  Numbers in the component are only ever
compared or displayed, so `Int` suffices for the claims considered. -/
inductive JsValue where
  | undef : JsValue
  | null : JsValue
  | bool (b : Bool) : JsValue
  | num (n : Int) : JsValue
  | str (s : String) : JsValue
deriving DecidableEq, Repr

/-- JavaScript truthiness: `undefined`, `null`, `false`, `0`, and `""`
are falsy; everything else modelled here is truthy. -/
def truthy : JsValue → Bool
  | JsValue.undef => false
  | JsValue.null => false
  | JsValue.bool b => b
  | JsValue.num n => decide (n ≠ 0)
  | JsValue.str s => decide (s ≠ "")

/-- `location.coordinates` of a weather-response document. -/
structure Coordinates where
  lat : JsValue
  lon : JsValue
deriving DecidableEq, Repr

/-- `location` of a weather-response document. -/
structure Location where
  city : JsValue
  coordinates : Coordinates
deriving DecidableEq, Repr

/-- One entry of `hourly_forecast` (`hour`, `conditions`,
`solar_potential`). -/
structure HourEntry where
  hour : JsValue
  conditions : JsValue
  solar_potential : JsValue
deriving DecidableEq, Repr

/-- One entry of `daily_forecast` (`date`, `conditions`,
`solar_potential`). -/
structure DayEntry where
  date : JsValue
  conditions : JsValue
  solar_potential : JsValue
deriving DecidableEq, Repr

/-- `wave_conditions` payload. -/
structure WaveConditions where
  wave_height : JsValue
  wave_direction : JsValue
  sea_temperature : JsValue
deriving DecidableEq, Repr

/-- `air_quality_metrics` payload. -/
structure AirQualityMetrics where
  aqi_level : JsValue
  pollutants : JsValue
  health_implications : JsValue
deriving DecidableEq, Repr

/-- One entry of `recommendations` (`category`, `advice`). -/
structure Recommendation where
  category : JsValue
  advice : JsValue
deriving DecidableEq, Repr

/-- A weather-response document as consumed by `renderWeatherData`.
`query_type` and `time_frame` are raw JS values (they are tested for
truthiness and compared with `===` against string literals in the
source).  `recommendations` is `none` when the field is absent. -/
structure Content where
  query_type : JsValue
  time_frame : JsValue
  location : Location
  summary : JsValue
  hourly_forecast : List HourEntry
  daily_forecast : List DayEntry
  wave_conditions : WaveConditions
  air_quality_metrics : AirQualityMetrics
  recommendations : Option (List Recommendation)
deriving DecidableEq, Repr

/-- One building block of the rendered presentation tree, mirroring the
JSX sub-trees emitted by the render helpers. -/
inductive Block where
  | locationHeader (city lat lon : JsValue) : Block
  | summaryText (s : JsValue) : Block
  | hourlyBlock (rows : List HourEntry) : Block
  | dailyBlock (rows : List DayEntry) : Block
  | marineBlock (w : WaveConditions) : Block
  | airQualityBlock (a : AirQualityMetrics) : Block
  | recommendationsBlock (recs : List Recommendation) : Block
deriving DecidableEq, Repr

/-- Result of `renderWeatherData`: either the opaque
`JSON.stringify(content)` fallback (carrying the whole serialized input)
or a structured tree of blocks in emission order. -/
inductive Rendered where
  | fallback (serializedOf : Content) : Rendered
  | tree (blocks : List Block) : Rendered
deriving DecidableEq, Repr

/-- `renderRecommendations(content)`: returns nothing when
`!content.recommendations?.length`, i.e. when the field is absent or the
list is empty; otherwise one recommendations block iterating the list in
order. -/
def renderRecommendations (content : Content) : List Block :=
  match content.recommendations with
  | none => []
  | some recs => if recs.length = 0 then [] else [Block.recommendationsBlock recs]

/-- `renderWeatherData(content)`: if `!content.query_type` the whole
input is returned as `JSON.stringify(content)`; otherwise the location
header and summary are emitted, followed by the four independently
guarded type-specific blocks in source order, followed by
`renderRecommendations(content)`. -/
def renderWeatherData (content : Content) : Rendered :=
  if !truthy content.query_type then Rendered.fallback content
  else
    Rendered.tree
      ([Block.locationHeader content.location.city
          content.location.coordinates.lat content.location.coordinates.lon,
        Block.summaryText content.summary]
       ++ (if content.query_type = JsValue.str "forecast" ∧
              content.time_frame = JsValue.str "hourly" then
             [Block.hourlyBlock content.hourly_forecast] else [])
       ++ (if content.query_type = JsValue.str "forecast" ∧
              content.time_frame = JsValue.str "daily" then
             [Block.dailyBlock content.daily_forecast] else [])
       ++ (if content.query_type = JsValue.str "marine" then
             [Block.marineBlock content.wave_conditions] else [])
       ++ (if content.query_type = JsValue.str "air_quality" then
             [Block.airQualityBlock content.air_quality_metrics] else [])
       ++ renderRecommendations content)

/-- The component state read by the render helpers through their
closure: `message`, `conversations` length is irrelevant here, `loading`
and `error`.  Only used to state that rendering ignores it. -/
structure RenderEnv where
  messageEnv : JsValue
  loadingEnv : Bool
  errorEnv : Option JsValue
deriving DecidableEq, Repr

/-- `renderWeatherData` as it exists in the component: a closure over
the surrounding component state.  Its body (the JSX above) mentions only
`content`, never the closed-over state. -/
def renderWeatherDataIn (_env : RenderEnv) (content : Content) : Rendered :=
  renderWeatherData content

/-- Role of a turn: the `type` field set to `'user'` or `'assistant'`
when the message object is created in `handleSubmit`. -/
inductive Role where
  | user : Role
  | assistant : Role
deriving DecidableEq, Repr

/-- Payload of a turn: the user's text, or the assistant's response
document (`res.data`). -/
inductive TurnContent where
  | userText (s : String) : TurnContent
  | doc (c : Content) : TurnContent
deriving DecidableEq, Repr

/-- One conversation message: `{type, content, timestamp}` as built in
`handleSubmit`. -/
structure Turn where
  role : Role
  content : TurnContent
  timestamp : String
deriving DecidableEq, Repr

/-- The user message object appended before the network call. -/
def userTurn (text : String) (ts : String) : Turn :=
  { role := Role.user, content := TurnContent.userText text, timestamp := ts }

/-- The assistant message object appended on success, carrying
`res.data`. -/
def assistantTurn (d : Content) (ts : String) : Turn :=
  { role := Role.assistant, content := TurnContent.doc d, timestamp := ts }

/-- The error message surfaced in the `error` state: either the
structured `<div><strong>{error}</strong><br/>{details}</div>` (both
fields carried verbatim) or a plain value. -/
inductive ErrMsg where
  | structured (title details : JsValue) : ErrMsg
  | plain (v : JsValue) : ErrMsg
deriving DecidableEq, Repr

/-- The generic fallback string of the catch branch. -/
def fallbackMsg : String := "Failed to get data. Please try again."

/-- The fixed advisory message set when the conversation limit check
fails. -/
def limitMsg : String :=
  "Maximum conversation limit reached. Please refresh to start a new conversation."

/-- The body of an HTTP error response, `err.response.data`, with its
`error` and `details` fields as raw JS values (`JsValue.undef` when the
field is absent). -/
structure ErrData where
  error : JsValue
  details : JsValue
deriving DecidableEq, Repr

/-- The catch branch's error mapping: with `resp = err.response?.data`
(`none` for a network error or timeout without a response body),
`err.response?.data?.details` truthy selects the structured message
carrying `error` and `details` verbatim; otherwise the message is
`err.response?.data?.error || fallback`. -/
def errorMessageOf (resp : Option ErrData) : ErrMsg :=
  match resp with
  | some d =>
      if truthy d.details then ErrMsg.structured d.error d.details
      else ErrMsg.plain (if truthy d.error then d.error else JsValue.str fallbackMsg)
  | none => ErrMsg.plain (JsValue.str fallbackMsg)

/-- Component state: `message`, `conversations`, `loading`, `error`. -/
structure ComponentState where
  message : String
  conversations : List Turn
  loading : Bool
  error : Option ErrMsg
deriving DecidableEq, Repr

/-- Resolved outcome of the single awaited `axios.post`: success with
the response document, or failure with the optional error-response
body (`none` models a network error or the 30s timeout, where no
response body exists). -/
inductive Outcome where
  | success (d : Content) : Outcome
  | failure (resp : Option ErrData) : Outcome
deriving DecidableEq, Repr

/-- A state-changing step performed by `handleSubmit`, in program
order.  `networkCall` marks the `await axios.post` suspension point. -/
inductive Event where
  | setLoading (b : Bool) : Event
  | setError (e : Option ErrMsg) : Event
  | setMessage (m : String) : Event
  | appendTurn (t : Turn) : Event
  | networkCall : Event
deriving DecidableEq, Repr

/-- Effect of one event on the component state. -/
def applyEvent (s : ComponentState) : Event → ComponentState
  | Event.setLoading b => { s with loading := b }
  | Event.setError e => { s with error := e }
  | Event.setMessage m => { s with message := m }
  | Event.appendTurn t => { s with conversations := s.conversations ++ [t] }
  | Event.networkCall => s

/-- `handleSubmit` as its sequence of events.  If
`conversations.length >= 10` the handler sets the limit message and
returns; otherwise it sets `loading`, clears `error`, appends the user
turn, clears the input, performs the network call, then either appends
the assistant turn (success) or sets the mapped error message
(failure), and finally clears `loading` in the `finally` block. -/
def handleSubmitEvents (s : ComponentState) (out : Outcome)
    (tsUser tsAssistant : String) : List Event :=
  if s.conversations.length ≥ 10 then
    [Event.setError (some (ErrMsg.plain (JsValue.str limitMsg)))]
  else
    [Event.setLoading true, Event.setError none,
     Event.appendTurn (userTurn s.message tsUser), Event.setMessage "",
     Event.networkCall]
    ++ (match out with
        | Outcome.success d => [Event.appendTurn (assistantTurn d tsAssistant)]
        | Outcome.failure resp => [Event.setError (some (errorMessageOf resp))])
    ++ [Event.setLoading false]

/-- `handleSubmit`: final state after folding its events. -/
def handleSubmit (s : ComponentState) (out : Outcome)
    (tsUser tsAssistant : String) : ComponentState :=
  (handleSubmitEvents s out tsUser tsAssistant).foldl applyEvent s

/-- The `Start New Conversation` button's `onClick`: clears the
conversation list and the error state, unconditionally. -/
def resetSession (s : ComponentState) : ComponentState :=
  { s with conversations := [], error := none }

/-- The displayed `{5 - Math.floor(conversations.length/2)} questions
remaining` value. -/
def remainingQuestions (s : ComponentState) : Int :=
  5 - Int.ofNat (s.conversations.length / 2)

/-- Number of user turns in the state. -/
def userTurnCount (s : ComponentState) : Nat :=
  s.conversations.countP (fun t => t.role = Role.user)

/-- Number of assistant turns in the state. -/
def assistantTurnCount (s : ComponentState) : Nat :=
  s.conversations.countP (fun t => t.role = Role.assistant)

/-- A concrete marine-response document used as input for witnesses. -/
def exampleDoc : Content :=
  { query_type := JsValue.str "marine", time_frame := JsValue.undef,
    location := { city := JsValue.str "Lagos",
                  coordinates := { lat := JsValue.num 6, lon := JsValue.num 3 } },
    summary := JsValue.str "Calm seas",
    hourly_forecast := [], daily_forecast := [],
    wave_conditions := { wave_height := JsValue.str "1m",
                         wave_direction := JsValue.str "NE",
                         sea_temperature := JsValue.str "26C" },
    air_quality_metrics := { aqi_level := JsValue.undef,
                             pollutants := JsValue.undef,
                             health_implications := JsValue.undef },
    recommendations := none }

/-- Every turn is a user turn or an assistant turn, so the two role
counts add up to the total turn count. -/
theorem countP_roles_add (l : List Turn) :
    l.countP (fun t => t.role = Role.user) +
      l.countP (fun t => t.role = Role.assistant) = l.length := by
  induction l with
  | nil => rfl
  | cons t l ih =>
      cases h : t.role <;>
        simp [List.countP_cons, h, Nat.add_assoc, Nat.add_comm, Nat.add_left_comm, ih.symm]

/-- `renderRecommendations` emits the block exactly when the field is a
non-empty sequence. -/
theorem renderRecommendations_eq_match (c : Content) :
    renderRecommendations c =
      (match c.recommendations with
       | none => []
       | some recs =>
           if recs ≠ [] then [Block.recommendationsBlock recs] else []) := by
  cases hr : c.recommendations with
  | none => simp [renderRecommendations, hr]
  | some recs =>
      cases recs with
      | nil => simp [renderRecommendations, hr]
      | cons a l => simp [renderRecommendations, hr]

/-- C2: the displayed `remainingQuestions` value equals `5` minus the
floor of the total turn count (user turns plus assistant turns) divided
by `2`, for every session state. -/
theorem remainingQuestions_from_total_turns (s : ComponentState) :
    remainingQuestions s =
      5 - Int.ofNat ((userTurnCount s + assistantTurnCount s) / 2) := by
  unfold remainingQuestions userTurnCount assistantTurnCount
  rw [countP_roles_add]

/-- C6: a document whose `query_type` field is absent is rendered as
the opaque serialization of the whole input, with no structured
blocks. -/
theorem render_missing_discriminant (c : Content) :
    renderWeatherData { c with query_type := JsValue.undef } =
      Rendered.fallback { c with query_type := JsValue.undef } := by
  simp [renderWeatherData, truthy]

/-- C7: the reset action clears the whole turn sequence and the error
state unconditionally, and a submission after reset passes the limit
check: the network call happens and the user turn is appended (followed
by the assistant turn exactly on success). -/
theorem reset_clears_and_reenables (s : ComponentState) (out : Outcome)
    (tsU tsA : String) :
    (resetSession s).conversations = [] ∧
    (resetSession s).error = none ∧
    Event.networkCall ∈ handleSubmitEvents (resetSession s) out tsU tsA ∧
    (handleSubmit (resetSession s) out tsU tsA).conversations =
      userTurn s.message tsU ::
        (match out with
         | Outcome.success d => [assistantTurn d tsA]
         | Outcome.failure _ => []) := by
  refine ⟨rfl, rfl, ?_, ?_⟩ <;>
    cases out <;>
      simp [handleSubmitEvents, handleSubmit, resetSession, applyEvent]

/-- C8: rendering is deterministic and reads no component state: the
result on a document is the same whatever the surrounding component
state is, and two calls on the same document give identical output. -/
theorem render_state_independent (env1 env2 : RenderEnv) (c : Content) :
    renderWeatherDataIn env1 c = renderWeatherDataIn env2 c ∧
    renderWeatherDataIn env1 c = renderWeatherDataIn env1 c :=
  ⟨rfl, rfl⟩

/-- C10: the opaque fallback is taken for every falsy `query_type` —
absent (`undefined`), `null`, the empty string, or `0` — not only a
missing field. -/
theorem render_falsy_discriminant_fallback (c : Content)
    (h : c.query_type = JsValue.undef ∨ c.query_type = JsValue.null ∨
         c.query_type = JsValue.str "" ∨ c.query_type = JsValue.num 0) :
    renderWeatherData c = Rendered.fallback c := by
  rcases h with h | h | h | h <;> simp [renderWeatherData, truthy, h]

/-- C10 witness: a document whose `query_type` is the empty string is
rendered as the fallback. -/
theorem render_falsy_discriminant_fallback_witness :
    renderWeatherData { exampleDoc with query_type := JsValue.str "" } =
      Rendered.fallback { exampleDoc with query_type := JsValue.str "" } :=
  render_falsy_discriminant_fallback
    { exampleDoc with query_type := JsValue.str "" }
    (Or.inr (Or.inr (Or.inl rfl)))

/-- A session holding exactly 5 user turns and no assistant turns (as
arises when every earlier request failed, since failures append no
assistant turn). -/
def fiveUserState : ComponentState :=
  { message := "again",
    conversations := List.replicate 5 (userTurn "q" "10:00:00"),
    loading := false, error := none }

/-- A session holding 10 turns, the state in which the limit check
fires. -/
def tenTurnState : ComponentState :=
  { message := "again",
    conversations :=
      List.replicate 5 (userTurn "q" "10:00:00") ++
        List.replicate 5 (assistantTurn exampleDoc "10:00:05"),
    loading := false, error := none }

/-- C1 counterexample: in a session with exactly 5 user turns already
appended (and no assistant turns), the next submission is NOT rejected:
the limit check passes, the network call happens, and the turn sequence
changes. -/
theorem sixth_submission_proceeds_after_five_user_turns :
    userTurnCount fiveUserState = 5 ∧
    Event.networkCall ∈
      handleSubmitEvents fiveUserState (Outcome.failure none) "t1" "t2" ∧
    (handleSubmit fiveUserState (Outcome.failure none) "t1" "t2").conversations ≠
      fiveUserState.conversations := by
  refine ⟨by decide, ?_, by decide⟩
  decide

/-- C1 (amended): when the TOTAL turn count (user plus assistant) is at
least 10 — which a session of 5 user turns reaches only when each got
its assistant reply — the next submission fails with the limit message
before any network call, leaving the turn sequence unchanged. -/
theorem limit_rejection_before_network (s : ComponentState) (out : Outcome)
    (tsU tsA : String) (h : s.conversations.length ≥ 10) :
    (handleSubmit s out tsU tsA).conversations = s.conversations ∧
    (handleSubmit s out tsU tsA).error =
      some (ErrMsg.plain (JsValue.str limitMsg)) ∧
    Event.networkCall ∉ handleSubmitEvents s out tsU tsA := by
  refine ⟨?_, ?_, ?_⟩ <;>
    simp [handleSubmit, handleSubmitEvents, if_pos h, applyEvent]

/-- C1 witness: the amended rejection at a concrete 10-turn session. -/
theorem limit_rejection_before_network_witness :
    (handleSubmit tenTurnState (Outcome.failure none) "t1" "t2").conversations =
      tenTurnState.conversations ∧
    (handleSubmit tenTurnState (Outcome.failure none) "t1" "t2").error =
      some (ErrMsg.plain (JsValue.str limitMsg)) ∧
    Event.networkCall ∉
      handleSubmitEvents tenTurnState (Outcome.failure none) "t1" "t2" :=
  limit_rejection_before_network tenTurnState (Outcome.failure none) "t1" "t2"
    (by decide)

/-- C3: when the limit check passes, the in-flight flag is cleared
afterwards in every case, and on any failure the user turn appended
before the call is still the (only) new turn — no assistant turn — and
the session holds the mapped error value. -/
theorem failure_keeps_user_turn_sets_error (s : ComponentState)
    (out : Outcome) (tsU tsA : String) (h : s.conversations.length < 10) :
    (handleSubmit s out tsU tsA).loading = false ∧
    (∀ resp, out = Outcome.failure resp →
       (handleSubmit s out tsU tsA).conversations =
         s.conversations ++ [userTurn s.message tsU] ∧
       (handleSubmit s out tsU tsA).error = some (errorMessageOf resp)) := by
  have hn : ¬ s.conversations.length ≥ 10 := Nat.not_le.mpr h
  cases out with
  | success d =>
      refine ⟨?_, ?_⟩
      · simp [handleSubmit, handleSubmitEvents, if_neg hn, applyEvent]
      · intro resp hresp; cases hresp
  | failure r =>
      refine ⟨?_, ?_⟩
      · simp [handleSubmit, handleSubmitEvents, if_neg hn, applyEvent]
      · intro resp hresp
        cases hresp
        refine ⟨?_, ?_⟩ <;>
          simp [handleSubmit, handleSubmitEvents, if_neg hn, applyEvent]

/-- C3 witness: a timeout (failure without a response body) on a fresh
session keeps the user turn, sets the generic fallback error, and
clears the in-flight flag. -/
theorem failure_keeps_user_turn_sets_error_witness :
    (handleSubmit { message := "hello", conversations := [], loading := false,
                    error := none } (Outcome.failure none) "t1" "t2").loading = false ∧
    (∀ resp, Outcome.failure none = Outcome.failure resp →
       (handleSubmit { message := "hello", conversations := [], loading := false,
                       error := none } (Outcome.failure none) "t1" "t2").conversations =
         [] ++ [userTurn "hello" "t1"] ∧
       (handleSubmit { message := "hello", conversations := [], loading := false,
                       error := none } (Outcome.failure none) "t1" "t2").error =
         some (errorMessageOf resp)) :=
  failure_keeps_user_turn_sets_error
    { message := "hello", conversations := [], loading := false, error := none }
    (Outcome.failure none) "t1" "t2" (by decide)

/-- C4 counterexample: a failure body carrying `details` but no `error`
is surfaced as the structured message (empty title plus the details),
not as the generic fallback string the claim requires. -/
theorem details_without_error_not_fallback :
    errorMessageOf
        (some { error := JsValue.undef,
                details := JsValue.str "Try again in 60s" }) =
      ErrMsg.structured JsValue.undef (JsValue.str "Try again in 60s") ∧
    errorMessageOf
        (some { error := JsValue.undef,
                details := JsValue.str "Try again in 60s" }) ≠
      ErrMsg.plain (JsValue.str fallbackMsg) := by
  refine ⟨rfl, ?_⟩
  decide

/-- C4 (amended): with truthy `details` the surfaced message carries
the `error` value (possibly absent) and `details` verbatim; with no
truthy `details` but a truthy `error`, the `error` value is surfaced
alone; with neither — including a missing response body — the message
is exactly the generic fallback string. -/
theorem error_mapping_cases (d : ErrData) :
    (truthy d.details = true →
       errorMessageOf (some d) = ErrMsg.structured d.error d.details) ∧
    (truthy d.details = false → truthy d.error = true →
       errorMessageOf (some d) = ErrMsg.plain d.error) ∧
    (truthy d.details = false → truthy d.error = false →
       errorMessageOf (some d) = ErrMsg.plain (JsValue.str fallbackMsg)) ∧
    errorMessageOf none = ErrMsg.plain (JsValue.str fallbackMsg) := by
  refine ⟨?_, ?_, ?_, rfl⟩
  · intro h1; simp [errorMessageOf, h1]
  · intro h1 h2; simp [errorMessageOf, h1, h2]
  · intro h1 h2; simp [errorMessageOf, h1, h2]

/-- C4 witness: a body with both `error` and `details` surfaces both
verbatim. -/
theorem error_mapping_cases_witness :
    errorMessageOf
        (some { error := JsValue.str "RateLimited",
                details := JsValue.str "Try again in 60s" }) =
      ErrMsg.structured (JsValue.str "RateLimited")
        (JsValue.str "Try again in 60s") :=
  (error_mapping_cases
      { error := JsValue.str "RateLimited",
        details := JsValue.str "Try again in 60s" }).1 (by decide)

/-- C9: every submission that passes the limit check performs, in
order, before anything else: set the in-flight flag, clear the error
value, append the user turn, clear the input, and only then the network
call — so the previous error is cleared before the user turn is
appended and before the request starts. -/
theorem error_cleared_before_append_and_call (s : ComponentState)
    (out : Outcome) (tsU tsA : String) (h : s.conversations.length < 10) :
    ∃ rest, handleSubmitEvents s out tsU tsA =
      [Event.setLoading true, Event.setError none,
       Event.appendTurn (userTurn s.message tsU), Event.setMessage "",
       Event.networkCall] ++ rest := by
  have hn : ¬ s.conversations.length ≥ 10 := Nat.not_le.mpr h
  refine ⟨(match out with
           | Outcome.success d => [Event.appendTurn (assistantTurn d tsA)]
           | Outcome.failure resp =>
               [Event.setError (some (errorMessageOf resp))]) ++
          [Event.setLoading false], ?_⟩
  simp [handleSubmitEvents, if_neg hn]

/-- C9 witness: the event prefix at a concrete fresh session and a
successful outcome. -/
theorem error_cleared_before_append_and_call_witness :
    ∃ rest,
      handleSubmitEvents
          { message := "hi", conversations := [], loading := false,
            error := none } (Outcome.success exampleDoc) "t1" "t2" =
        [Event.setLoading true, Event.setError none,
         Event.appendTurn (userTurn "hi" "t1"), Event.setMessage "",
         Event.networkCall] ++ rest :=
  error_cleared_before_append_and_call
    { message := "hi", conversations := [], loading := false, error := none }
    (Outcome.success exampleDoc) "t1" "t2" (by decide)

/-- C5: for every document with a truthy `query_type`, the rendered
tree is, in fixed order, the location header, the summary, then at most
one type-specific block chosen exclusively — forecast+hourly the hourly
block, forecast+daily the daily block, marine the marine block,
air_quality the air-quality block, any other combination none — then
the recommendations block exactly when `recommendations` is a non-empty
sequence. -/
theorem render_dispatch (c : Content) (h : truthy c.query_type = true) :
    renderWeatherData c =
      Rendered.tree
        ([Block.locationHeader c.location.city c.location.coordinates.lat
            c.location.coordinates.lon,
          Block.summaryText c.summary]
         ++ (if c.query_type = JsValue.str "forecast" ∧
                c.time_frame = JsValue.str "hourly" then
               [Block.hourlyBlock c.hourly_forecast]
             else if c.query_type = JsValue.str "forecast" ∧
                c.time_frame = JsValue.str "daily" then
               [Block.dailyBlock c.daily_forecast]
             else if c.query_type = JsValue.str "marine" then
               [Block.marineBlock c.wave_conditions]
             else if c.query_type = JsValue.str "air_quality" then
               [Block.airQualityBlock c.air_quality_metrics]
             else [])
         ++ (match c.recommendations with
             | none => []
             | some recs =>
                 if recs ≠ [] then [Block.recommendationsBlock recs]
                 else [])) := by
  rw [← renderRecommendations_eq_match]
  have hb : (!truthy c.query_type) = false := by simp [h]
  by_cases h1 : c.query_type = JsValue.str "forecast" ∧
      c.time_frame = JsValue.str "hourly"
  · obtain ⟨hq, ht⟩ := h1
    simp [renderWeatherData, hb, hq, ht]
    decide
  · by_cases h2 : c.query_type = JsValue.str "forecast" ∧
        c.time_frame = JsValue.str "daily"
    · obtain ⟨hq, ht⟩ := h2
      simp [renderWeatherData, hb, hq, ht]
      decide
    · by_cases h3 : c.query_type = JsValue.str "marine"
      · simp [renderWeatherData, hb, h3, h1, h2]
        decide
      · by_cases h4 : c.query_type = JsValue.str "air_quality"
        · simp [renderWeatherData, hb, h4, h1, h2, h3]
          decide
        · simp [renderWeatherData, hb, h1, h2, h3, h4]

/-- C5 witness: the dispatch evaluated on the concrete marine
document: header, summary, exactly the marine block, and no
recommendations block. -/
theorem render_dispatch_witness :
    truthy exampleDoc.query_type = true ∧
    renderWeatherData exampleDoc =
      Rendered.tree
        [Block.locationHeader (JsValue.str "Lagos") (JsValue.num 6)
           (JsValue.num 3),
         Block.summaryText (JsValue.str "Calm seas"),
         Block.marineBlock
           { wave_height := JsValue.str "1m",
             wave_direction := JsValue.str "NE",
             sea_temperature := JsValue.str "26C" }] :=
  ⟨by decide, by rw [render_dispatch exampleDoc (by decide)]; rfl⟩
